import Mathlib

/-!
Shallow embedding of the inference-serving pipeline of `mlops-iris`
(`src/api/main.py` and `src/src/utils.py`).

Python exceptions are modelled with `Except PyErr`; the module-level
mutable state of `api/main.py` (`_model`, the Prometheus counter and
histogram, the SQLite ledger) is an explicit `ServerState` threaded
through the handlers.  Wall-clock time, the measured latency, ambient
filesystem contents and storage failures are an explicit `Env`.
Rationals stand for the Python floats (the claims under study are not
about rounding).
-/

set_option autoImplicit false

namespace MlopsIris

/-- SQLite column types used by the `predictions` table of `init_db`. -/
inductive SqlType
  | integer
  | real
  | text
deriving DecidableEq

/-- Python exceptions that the embedded code can raise. -/
inductive PyErr
  | httpError (status : Nat) (detail : String)
  | fileNotFound (detail : String)
  | nameError (name : String)
  | keyError (key : Int)
  | predictionError (msg : String)
  | ledgerWriteError
deriving DecidableEq

/-- The validated feature vector (`IrisFeatures`, api/main.py lines 76-91). -/
structure IrisFeatures where
  sepal_length : ℚ
  sepal_width : ℚ
  petal_length : ℚ
  petal_width : ℚ
deriving DecidableEq

/-- A raw inbound payload before Pydantic validation: each of the four
declared fields may be absent. -/
structure RawPayload where
  sepal_length : Option ℚ
  sepal_width : Option ℚ
  petal_length : Option ℚ
  petal_width : Option ℚ
deriving DecidableEq

/-- The opaque sklearn model object: `predict(X)[0]` and, when the
attribute exists, `predict_proba(X)[0]`; either call may raise. -/
structure Model where
  predict : List ℚ → Except PyErr Int
  predict_proba : Option (List ℚ → Except PyErr (List ℚ))

/-- The response schema (`PredictResponse`, api/main.py lines 94-99).
The probabilities dict is an insertion-ordered association list. -/
structure PredictResponse where
  label_id : Int
  label_name : String
  probabilities : Option (List (String × ℚ))
  model_path : String
  timestamp : String
deriving DecidableEq

/-- One row of the SQLite `predictions` table (without the surrogate id,
which SQLite assigns as the row's position). -/
structure LedgerRow where
  ts : String
  sepal_length : ℚ
  sepal_width : ℚ
  petal_length : ℚ
  petal_width : ℚ
  prediction : Int
  latency_ms : ℚ
deriving DecidableEq

/-- Module-level mutable state of api/main.py plus the process-wide
metrics of src/utils.py and the SQLite ledger contents. -/
structure ServerState where
  model : Option Model
  modelPath : String
  requestCount : Nat
  latencyObs : List ℚ
  ledger : List LedgerRow

/-- Ambient environment of one request: response timestamp, measured
latency (seconds), whether the SQLite write raises, and whether a model
artifact currently exists at the configured path. -/
structure Env where
  ts : String
  latency : ℚ
  ledgerFails : Bool
  artifactExists : Bool
deriving DecidableEq

/-- Canonical feature order (`_feature_order`, api/main.py line 51). -/
def feature_order : List String :=
  ["sepal_length", "sepal_width", "petal_length", "petal_width"]

/-- The `_target_names` dict of api/main.py line 52. -/
def target_names : List (Int × String) :=
  [(0, "setosa"), (1, "versicolor"), (2, "virginica")]

/-- Dict access `_target_names[i]` returning `none` on a missing key. -/
def targetNamesGet (i : Int) : Option String :=
  target_names.lookup i

/-- The fallback lookup `_target_names.get(int(yhat), str(yhat))`. -/
def labelName (i : Int) : String :=
  (targetNamesGet i).getD (toString i)

/-- `IrisFeatures.to_dataframe`: the single positional row in canonical
column order. -/
def IrisFeatures.to_dataframe (f : IrisFeatures) : List ℚ :=
  [f.sepal_length, f.sepal_width, f.petal_length, f.petal_width]

/-- The dict comprehension building the probabilities map:
`\x7b_target_names[int(i)]: float(p) for i, p in enumerate(proba)\x7d`.
Indexing the dict raises `KeyError` at the first index with no entry. -/
def buildProbs : Int → List ℚ → Except PyErr (List (String × ℚ))
  | _, [] => Except.ok []
  | i, p :: ps =>
    match targetNamesGet i with
    | none => Except.error (PyErr.keyError i)
    | some name =>
      match buildProbs (i + 1) ps with
      | Except.error e => Except.error e
      | Except.ok rest => Except.ok ((name, p) :: rest)

/-- The body of the `try` block of `predict` (api/main.py lines 127-143):
returns the outcome (response or in-flight exception) together with the
binding status of the local variable `yhat`. -/
def tryBody (m : Model) (modelPath ts : String) (payload : IrisFeatures) :
    Except PyErr PredictResponse × Option Int :=
  match m.predict payload.to_dataframe with
  | Except.error e => (Except.error e, none)
  | Except.ok yhat =>
    let resp : PredictResponse :=
      { label_id := yhat, label_name := labelName yhat, probabilities := none,
        model_path := modelPath, timestamp := ts }
    match m.predict_proba with
    | none => (Except.ok resp, some yhat)
    | some pp =>
      match pp payload.to_dataframe with
      | Except.error e => (Except.error e, some yhat)
      | Except.ok proba =>
        match buildProbs 0 proba with
        | Except.error e => (Except.error e, some yhat)
        | Except.ok probs =>
          (Except.ok { resp with probabilities := some probs }, some yhat)

/-- `log_prediction` of src/utils.py lines 91-132: one INSERT appending a
row with the four feature values, the prediction and the latency. -/
def log_prediction (db : List LedgerRow) (ts_iso : String)
    (features : IrisFeatures) (prediction : Int) (latency_ms : ℚ) :
    List LedgerRow :=
  db ++ [{ ts := ts_iso,
           sepal_length := features.sepal_length,
           sepal_width := features.sepal_width,
           petal_length := features.petal_length,
           petal_width := features.petal_width,
           prediction := prediction,
           latency_ms := latency_ms }]

/-- The `finally` block of `predict` (api/main.py lines 144-162).
It always observes the latency; then a `try` around `log_prediction`
whose `prediction` argument is
`int(yhat) if "_model" in globals() and _model is not None else -1`
(evaluating `int(yhat)` raises `NameError` when the prediction step threw,
because `yhat` was never bound; the exception is caught and only warned
about); finally the `logger.info` call whose argument
`int(yhat) if _model else None` evaluates `int(yhat)` again, this time
outside any handler. -/
def finallyBlock (st : ServerState) (env : Env) (payload : IrisFeatures)
    (yhat : Option Int) : Except PyErr Unit × ServerState :=
  let st1 : ServerState := { st with latencyObs := st.latencyObs ++ [env.latency] }
  let predArg : Except PyErr Int :=
    if st1.model.isSome then
      match yhat with
      | some v => Except.ok v
      | none => Except.error (PyErr.nameError "yhat")
    else Except.ok (-1)
  let st2 : ServerState :=
    match predArg with
    | Except.error _ => st1
    | Except.ok pred =>
      if env.ledgerFails then st1
      else { st1 with
             ledger := log_prediction st1.ledger env.ts payload pred (env.latency * 1000) }
  if st2.model.isSome then
    match yhat with
    | some _ => (Except.ok (), st2)
    | none => (Except.error (PyErr.nameError "yhat"), st2)
  else (Except.ok (), st2)

/-- The `predict` route handler after validation (api/main.py lines
118-162): readiness gate, counter increment, `try` body, `finally`
block.  Per Python semantics an exception raised inside `finally`
replaces whatever outcome (return value or in-flight exception) the
`try` body produced. -/
def predictHandler (st : ServerState) (env : Env) (payload : IrisFeatures) :
    Except PyErr PredictResponse × ServerState :=
  match st.model with
  | none => (Except.error (PyErr.httpError 503 "Model not loaded"), st)
  | some m =>
    let st1 : ServerState := { st with requestCount := st.requestCount + 1 }
    let body := tryBody m st1.modelPath env.ts payload
    let fin := finallyBlock st1 env payload body.2
    match fin.1 with
    | Except.error e => (Except.error e, fin.2)
    | Except.ok _ => (body.1, fin.2)

/-- Pydantic validation of one declared field `Field(..., ge=0)`:
required, and constrained to be at least zero. -/
def validateField (v : Option ℚ) : Option ℚ :=
  match v with
  | none => none
  | some x => if 0 ≤ x then some x else none

/-- Pydantic validation of the whole `IrisFeatures` payload: every
declared field must individually validate. -/
def validatePayload (raw : RawPayload) : Option IrisFeatures :=
  match validateField raw.sepal_length, validateField raw.sepal_width,
        validateField raw.petal_length, validateField raw.petal_width with
  | some a, some b, some c, some d =>
    some { sepal_length := a, sepal_width := b, petal_length := c, petal_width := d }
  | _, _, _, _ => none

/-- The `/predict` boundary: FastAPI validates the payload against the
`IrisFeatures` schema before the handler runs; a validation failure is a
422 response and the handler body is never entered. -/
def predictEndpoint (st : ServerState) (env : Env) (raw : RawPayload) :
    Except PyErr PredictResponse × ServerState :=
  match validatePayload raw with
  | none => (Except.error (PyErr.httpError 422 "validation error"), st)
  | some payload => predictHandler st env payload

/-- Modelled from the spec: "all four fields present and ≥ 0; absence or
negativity is a validation failure" — the spec-worded validity test,
to be compared with the source-derived `validatePayload`. -/
def specPayloadValid (raw : RawPayload) : Bool :=
  (match raw.sepal_length with | some x => decide (0 ≤ x) | none => false) &&
  (match raw.sepal_width with | some x => decide (0 ≤ x) | none => false) &&
  (match raw.petal_length with | some x => decide (0 ≤ x) | none => false) &&
  (match raw.petal_width with | some x => decide (0 ≤ x) | none => false)

/-- The `_load_model` function (api/main.py lines 55-60): `FileNotFoundError`
when no artifact exists at the path, otherwise the deserialized model. -/
def load_model (path : String) (artifactExists : Bool) (artifact : Model) :
    Except PyErr Model :=
  if artifactExists then Except.ok artifact
  else Except.error (PyErr.fileNotFound ("Model file not found: " ++ path))

/-- The `_startup` hook (api/main.py lines 63-70): bind the loaded model,
or on any exception log it and leave `_model` as it was. -/
def startup (st : ServerState) (artifactExists : Bool) (artifact : Model) :
    ServerState :=
  match load_model st.modelPath artifactExists artifact with
  | Except.ok m => { st with model := some m }
  | Except.error _ => st

/-- Response body of `/health` (api/main.py lines 105-115). -/
structure HealthBody where
  ok : Bool
  model_loaded : Bool
  model_path : String
  time : String
deriving DecidableEq

/-- The `/health` route: status code and body. -/
def health (st : ServerState) (now : String) : Nat × HealthBody :=
  let ready := st.model.isSome
  (if ready then 200 else 503,
   { ok := true, model_loaded := ready, model_path := st.modelPath, time := now })

/-- The `predictions` table schema created by `init_db`
(src/utils.py lines 70-88). -/
def predictions_schema : List (String × SqlType) :=
  [("id", SqlType.integer), ("ts", SqlType.text),
   ("sepal_length", SqlType.real), ("sepal_width", SqlType.real),
   ("petal_length", SqlType.real), ("petal_width", SqlType.real),
   ("prediction", SqlType.integer), ("latency_ms", SqlType.real)]

/-- Operations that touch the module-level state during the process
lifetime. -/
inductive Op
  | startupOp (artifactExists : Bool) (artifact : Model)
  | predictOp (env : Env) (payload : IrisFeatures)
  | healthOp (now : String)

/-- One step of the server's state machine. -/
def stepState (st : ServerState) : Op → ServerState
  | Op.startupOp ex a => startup st ex a
  | Op.predictOp env p => (predictHandler st env p).2
  | Op.healthOp _ => st

/-- Process state right after module import: no model bound, fresh
metrics, empty ledger, default artifact path. -/
def initState : ServerState :=
  { model := none, modelPath := "artifacts/model/model.joblib",
    requestCount := 0, latencyObs := [], ledger := [] }

/-- Run a sequence of operations from the fresh process state. -/
def runOps (ops : List Op) : ServerState :=
  ops.foldl stepState initState

/-- Whether an operation is a successful model load. -/
def opLoads : Op → Bool
  | Op.startupOp ex _ => ex
  | _ => false

/-- A bound model whose prediction step raises (e.g. a backend exception
on a corrupt input). -/
def badModel : Model :=
  { predict := fun _ => Except.error (PyErr.predictionError "boom"),
    predict_proba := none }

/-- A bound model that deterministically answers class 0 and exposes no
probability capability. -/
def goodModel : Model :=
  { predict := fun _ => Except.ok 0, predict_proba := none }

/-- A bound model answering a fixed class id, with no probability
capability. -/
def constModel (y : Int) : Model :=
  { predict := fun _ => Except.ok y, predict_proba := none }

/-- A bound model answering a fixed class id whose `predict_proba`
returns a fixed probability vector. -/
def probaModel (y : Int) (ps : List ℚ) : Model :=
  { predict := fun _ => Except.ok y, predict_proba := some (fun _ => Except.ok ps) }

/-- A fresh server state with the given model bound. -/
def readyState (m : Model) : ServerState :=
  { initState with model := some m }

/-- A concrete request environment: storage healthy, no artifact on disk. -/
def env0 : Env :=
  { ts := "2026-01-01T00:00:00Z", latency := 1, ledgerFails := false,
    artifactExists := false }

/-- A concrete request environment in which a loadable artifact exists at
the configured path. -/
def envArtifact : Env :=
  { env0 with artifactExists := true }

/-- A concrete valid feature vector. -/
def goodFeatures : IrisFeatures :=
  { sepal_length := 5, sepal_width := 3, petal_length := 1, petal_width := 2 }

/-- The spec scenario payload: `petal_width` absent. -/
def missingPetalWidth : RawPayload :=
  { sepal_length := some 5, sepal_width := some 3, petal_length := some 1,
    petal_width := none }

/-! ## Helper lemmas -/

/-- The `finally` block touches only the histogram and the ledger: model,
path and request counter are unchanged, and exactly one latency
observation is appended. -/
theorem finallyBlock_frame (st : ServerState) (env : Env) (p : IrisFeatures)
    (y : Option Int) :
    (finallyBlock st env p y).2.model = st.model ∧
    (finallyBlock st env p y).2.modelPath = st.modelPath ∧
    (finallyBlock st env p y).2.requestCount = st.requestCount ∧
    (finallyBlock st env p y).2.latencyObs = st.latencyObs ++ [env.latency] := by
  unfold finallyBlock
  cases hm : st.model <;> cases y <;> cases hl : env.ledgerFails <;> simp [hm, hl]

/-- When a model is bound, the handler's final state is the state produced
by the `finally` block over the incremented-counter state. -/
theorem predictHandler_snd (st : ServerState) (env : Env) (p : IrisFeatures)
    (m : Model) (h : st.model = some m) :
    (predictHandler st env p).2 =
      (finallyBlock { st with requestCount := st.requestCount + 1 } env p
        (tryBody m st.modelPath env.ts p).2).2 := by
  simp only [predictHandler, h]
  split <;> rfl

/-- The handler never rebinds or unbinds the model. -/
theorem predictHandler_model (st : ServerState) (env : Env) (p : IrisFeatures) :
    (predictHandler st env p).2.model = st.model := by
  cases h : st.model with
  | none => simp [predictHandler, h]
  | some m =>
    rw [predictHandler_snd st env p m h]
    rw [(finallyBlock_frame _ _ _ _).1]
    exact h

/-- One state-machine step changes boundedness exactly when the operation
is a successful load. -/
theorem stepState_model_isSome (st : ServerState) (op : Op) :
    (stepState st op).model.isSome = (st.model.isSome || opLoads op) := by
  cases op with
  | startupOp ex a =>
    cases ex <;> simp [stepState, startup, load_model, opLoads]
  | predictOp env p => simp [stepState, opLoads, predictHandler_model]
  | healthOp now => simp [stepState, opLoads]

/-- Over any operation sequence, the model is bound exactly when the
starting state was bound or some operation loaded successfully. -/
theorem foldl_model_isSome (ops : List Op) :
    ∀ st : ServerState,
      (ops.foldl stepState st).model.isSome = (st.model.isSome || ops.any opLoads) := by
  induction ops with
  | nil => intro st; simp
  | cons op rest ih =>
    intro st
    simp [List.foldl_cons, List.any_cons, ih, stepState_model_isSome, Bool.or_assoc]

/-- Pydantic validation succeeds exactly when all four fields are present
and non-negative (the spec-worded condition). -/
theorem validatePayload_isSome (raw : RawPayload) :
    (validatePayload raw).isSome = specPayloadValid raw := by
  rcases raw with ⟨a, b, c, d⟩
  cases a <;> cases b <;> cases c <;> cases d <;>
    simp only [validatePayload, validateField, specPayloadValid] <;>
    (try split_ifs) <;> simp_all

/-! ## Claim theorems -/

/-- Claim C1 (code bug witnessed): at a ready state whose bound model's
prediction step throws, the pipeline stage is entered (the counter is
incremented and a latency observation recorded) yet NO Prediction Record
is appended to the ledger — the sentinel −1 record the claim requires is
omitted, because the ledger call's `prediction` argument evaluates
`int(yhat)` with `yhat` unbound and the resulting `NameError` is caught
by the surrounding handler. -/
theorem C1_record_omitted :
    (predictHandler (readyState badModel) env0 goodFeatures).2.requestCount = 1
    ∧ (predictHandler (readyState badModel) env0 goodFeatures).2.latencyObs
        = [env0.latency]
    ∧ (predictHandler (readyState badModel) env0 goodFeatures).2.ledger = [] :=
  ⟨rfl, rfl, rfl⟩

/-- Claim C2 (code bug witnessed): at a ready state whose bound model's
prediction step throws with `predictionError "boom"`, the caller-visible
outcome is NOT that original error but a `NameError` raised by the
always-run metrics/ledger/log step itself (the `logger.info` argument
`int(yhat) if _model else None` evaluates the unbound `yhat` outside any
handler, and the `finally` exception replaces the in-flight one). -/
theorem C2_log_error_masks :
    (predictHandler (readyState badModel) env0 goodFeatures).1
      = Except.error (PyErr.nameError "yhat")
    ∧ (predictHandler (readyState badModel) env0 goodFeatures).1
        ≠ Except.error (PyErr.predictionError "boom") := by
  refine ⟨rfl, ?_⟩
  intro h
  rw [show (predictHandler (readyState badModel) env0 goodFeatures).1
      = Except.error (PyErr.nameError "yhat") from rfl] at h
  simp at h

/-- Claim C3 counterexample: a predict request arriving while the handle
is unbound fails with `ModelUnavailable` (HTTP 503) and leaves the handle
unbound, even though a loadable artifact exists at the configured path
(`envArtifact.artifactExists = true` and a startup load at this
environment would bind the model) — so the operation does NOT re-attempt
a load before failing, contradicting the claim. -/
theorem C3_counterexample :
    envArtifact.artifactExists = true
    ∧ (startup initState envArtifact.artifactExists goodModel).model.isSome = true
    ∧ (predictHandler initState envArtifact goodFeatures).1
        = Except.error (PyErr.httpError 503 "Model not loaded")
    ∧ (predictHandler initState envArtifact goodFeatures).2.model = none :=
  ⟨rfl, rfl, rfl, rfl⟩

/-- Claim C3 amended: for every predict request arriving while the Model
Handle is unbound, the operation fails immediately with
`ModelUnavailable` and changes nothing — no load is re-attempted; a model
load is attempted only by the startup hook. -/
theorem C3_amended (st : ServerState) (env : Env) (p : IrisFeatures) :
    (predictHandler { st with model := none } env p).1
      = Except.error (PyErr.httpError 503 "Model not loaded")
    ∧ (predictHandler { st with model := none } env p).2
        = { st with model := none } :=
  ⟨rfl, rfl⟩

/-- Claim C4 counterexample: when no artifact exists at the configured
path at load time, startup leaves the handle unbound and the service
reports not ready (HTTP 503) — no fallback classifier is synthesized and
bound, contradicting the claim. -/
theorem C4_counterexample :
    (startup initState false goodModel).model = none
    ∧ (health (startup initState false goodModel) env0.ts).1 = 503
    ∧ (health (startup initState false goodModel) env0.ts).2.model_loaded = false :=
  ⟨rfl, rfl, rfl⟩

/-- Claim C4 amended: when no model artifact exists at the configured
path at load time, the load fails with `ArtifactNotFound`, the startup
hook catches it and leaves the state unchanged (the handle stays
unbound), and the service reports not ready rather than becoming
answerable through a fallback classifier. -/
theorem C4_amended (st : ServerState) (m : Model) (now : String) :
    load_model st.modelPath false m
      = Except.error (PyErr.fileNotFound ("Model file not found: " ++ st.modelPath))
    ∧ startup st false m = st
    ∧ (health (startup initState false m) now).1 = 503
    ∧ (health (startup initState false m) now).2.model_loaded = false :=
  ⟨rfl, rfl, rfl, rfl⟩

/-- Claim C5: if the readiness check fails the operation returns
`ModelUnavailable` with the whole state (in particular the request
counter and latency histogram) unchanged; if it passes, the counter is
incremented exactly once and exactly one latency observation is
recorded, regardless of whether prediction succeeds or fails. -/
theorem C5_metrics_frame (st : ServerState) (env : Env) (p : IrisFeatures) :
    ((predictHandler st env p).2.requestCount
       = st.requestCount + (if st.model.isSome then 1 else 0))
    ∧ ((predictHandler st env p).2.latencyObs
       = if st.model.isSome then st.latencyObs ++ [env.latency] else st.latencyObs)
    ∧ ((predictHandler { st with model := none } env p).1
       = Except.error (PyErr.httpError 503 "Model not loaded"))
    ∧ ((predictHandler { st with model := none } env p).2 = { st with model := none }) := by
  refine ⟨?_, ?_, rfl, rfl⟩ <;>
  · cases h : st.model with
    | none => simp [predictHandler, h]
    | some m =>
      rw [predictHandler_snd st env p m h]
      simp [h, (finallyBlock_frame _ _ _ _).2.2.1, (finallyBlock_frame _ _ _ _).2.2.2]

/-- Claim C6: validation requires all four fields present and each ≥ 0;
a payload with a missing or negative field is rejected with a validation
failure (HTTP 422) before the pipeline is entered, with the state — in
particular the request counter and the latency histogram — unchanged,
and validation acceptance coincides exactly with the spec-worded
condition (no silent defaulting of rejected or absent fields). -/
theorem C6_validation (st : ServerState) (env : Env) (raw : RawPayload)
    (h : specPayloadValid raw = false) :
    predictEndpoint st env raw
      = (Except.error (PyErr.httpError 422 "validation error"), st)
    ∧ ∀ r : RawPayload, (validatePayload r).isSome = specPayloadValid r := by
  refine ⟨?_, validatePayload_isSome⟩
  cases hv : validatePayload raw with
  | none => simp [predictEndpoint, hv]
  | some f =>
    exfalso
    have h2 := validatePayload_isSome raw
    rw [hv, h] at h2
    simp at h2

/-- Claim C6 witness: the spec scenario — a payload missing
`petal_width` is rejected with 422 and the state is untouched. -/
theorem C6_validation_witness :
    specPayloadValid missingPetalWidth = false
    ∧ predictEndpoint initState env0 missingPetalWidth
        = (Except.error (PyErr.httpError 422 "validation error"), initState) :=
  ⟨rfl, (C6_validation initState env0 missingPetalWidth rfl).1⟩

/-- Claim C7: the readiness probe reports `false` in every state before
the first successful load and `true` permanently afterwards: over any
operation sequence from the fresh process state, the probe reports ready
exactly when some operation performed a successful load, and a single
step (including a failed prediction) never unbinds a bound model. -/
theorem C7_readiness_monotone (ops : List Op) (st : ServerState) (op : Op)
    (now : String) :
    ((health (runOps ops) now).2.model_loaded = true ↔ ∃ o ∈ ops, opLoads o = true)
    ∧ ((health (runOps ops) now).1 = if ops.any opLoads then 200 else 503)
    ∧ ((stepState st op).model.isSome = (st.model.isSome || opLoads op)) := by
  refine ⟨?_, ?_, stepState_model_isSome st op⟩
  · simp [health, runOps, foldl_model_isSome, initState, List.any_eq_true]
  · simp [health, runOps, foldl_model_isSome, initState]

/-- Claim C8: the label-name table maps 0, 1, 2 to setosa, versicolor,
virginica; every other class id maps to its stringified form; and for
every class id the bound model returns, the handler completes with a
successful response carrying that mapping (it does not crash). -/
theorem C8_label_names (y : Int) (env : Env) (p : IrisFeatures) :
    labelName 0 = "setosa" ∧ labelName 1 = "versicolor" ∧ labelName 2 = "virginica"
    ∧ (y = 0 ∨ y = 1 ∨ y = 2 ∨ labelName y = toString y)
    ∧ (predictHandler (readyState (constModel y)) env p).1
        = Except.ok { label_id := y, label_name := labelName y, probabilities := none,
                      model_path := "artifacts/model/model.joblib",
                      timestamp := env.ts } := by
  refine ⟨rfl, rfl, rfl, ?_, ?_⟩
  · by_cases h0 : y = 0
    · exact Or.inl h0
    by_cases h1 : y = 1
    · exact Or.inr (Or.inl h1)
    by_cases h2 : y = 2
    · exact Or.inr (Or.inr (Or.inl h2))
    refine Or.inr (Or.inr (Or.inr ?_))
    have e0 : (y == 0) = false := by simp [h0]
    have e1 : (y == 1) = false := by simp [h1]
    have e2 : (y == 2) = false := by simp [h2]
    simp [labelName, targetNamesGet, target_names, List.lookup, e0, e1, e2]
  · cases hl : env.ledgerFails <;>
      simp [predictHandler, tryBody, finallyBlock, readyState, initState,
        constModel, hl]

/-- Claim C9: a ledger row written with given timestamp, feature values,
prediction and latency reads back identical (no lossy conversion), and
the `predictions` table schema has exactly the columns id, ts, the four
real feature columns, integer prediction, and real latency_ms. -/
theorem C9_ledger_roundtrip (db : List LedgerRow) (ts : String) (f : IrisFeatures)
    (pred : Int) (lat : ℚ) :
    (log_prediction db ts f pred lat).getLast?
      = some { ts := ts, sepal_length := f.sepal_length,
               sepal_width := f.sepal_width, petal_length := f.petal_length,
               petal_width := f.petal_width, prediction := pred, latency_ms := lat }
    ∧ predictions_schema.map Prod.fst
        = ["id", "ts", "sepal_length", "sepal_width", "petal_length",
           "petal_width", "prediction", "latency_ms"]
    ∧ predictions_schema.lookup "ts" = some SqlType.text
    ∧ predictions_schema.lookup "sepal_length" = some SqlType.real
    ∧ predictions_schema.lookup "sepal_width" = some SqlType.real
    ∧ predictions_schema.lookup "petal_length" = some SqlType.real
    ∧ predictions_schema.lookup "petal_width" = some SqlType.real
    ∧ predictions_schema.lookup "prediction" = some SqlType.integer
    ∧ predictions_schema.lookup "latency_ms" = some SqlType.real := by
  refine ⟨?_, rfl, rfl, rfl, rfl, rfl, rfl, rfl, rfl⟩
  rw [log_prediction, List.getLast?_append_cons]
  rfl

/-- Claim C10: the probabilities map is keyed by the position of each
probability in the returned vector looked up in the fixed three-entry
table, so its construction succeeds exactly on vectors of length at most
three (pairing positions with setosa, versicolor, virginica in order)
and raises `KeyError 3` on longer ones; a model whose `predict_proba`
returns four or more entries therefore fails the whole request even
though its class prediction succeeded, while a three-entry vector yields
a successful response keyed in table order. -/
theorem C10_probabilities (ps : List ℚ) (a b c d : ℚ) (rest : List ℚ)
    (env : Env) (p : IrisFeatures) :
    (buildProbs 0 ps = if ps.length ≤ 3
        then Except.ok (List.zip ["setosa", "versicolor", "virginica"] ps)
        else Except.error (PyErr.keyError 3))
    ∧ ((predictHandler (readyState (probaModel 0 (a :: b :: c :: d :: rest))) env p).1
        = Except.error (PyErr.keyError 3))
    ∧ ((predictHandler (readyState (probaModel 0 [a, b, c])) env p).1
        = Except.ok { label_id := 0, label_name := "setosa",
                      probabilities := some [("setosa", a), ("versicolor", b),
                                             ("virginica", c)],
                      model_path := "artifacts/model/model.joblib",
                      timestamp := env.ts }) := by
  refine ⟨?_, ?_, ?_⟩
  · match ps with
    | [] => rfl
    | [x] => rfl
    | [x, y] => rfl
    | [x, y, z] => rfl
    | x :: y :: z :: w :: t =>
      rw [if_neg (by simp only [List.length_cons]; omega)]
      rfl
  · cases hl : env.ledgerFails <;>
      simp [predictHandler, tryBody, finallyBlock, readyState, initState,
        probaModel, hl, buildProbs, targetNamesGet, target_names, List.lookup]
  · cases hl : env.ledgerFails <;>
      simp [predictHandler, tryBody, finallyBlock, readyState, initState,
        probaModel, hl, buildProbs, targetNamesGet, target_names, List.lookup,
        labelName]

end MlopsIris
